import Mathlib

/-!
Verification of the Scaler-FunnelMind lead-capture funnel core
(`server.js`, `models/Analytics.js`, `models/Lead.js`,
`services/gmail-service.js`) as a shallow embedding in Lean.

JavaScript strings are modelled as Lean `String`; JavaScript numbers that
hold counters are modelled as `Nat`, and the derived `conversionRate` as
`ℚ` (the code only divides under an `assessmentStarts > 0` guard, so the
quotient is always a finite rational).  JavaScript truthiness on strings
(`x || d`) is modelled explicitly.  Fallible paths are modelled by
parameters that enumerate the outcomes of the external calls (template
file load, OpenAI call, SMTP transport).
-/

namespace FunnelMind

/-- JavaScript `x || d` for an optional string field: `undefined` and the
empty string are falsy, any other string is returned unchanged. -/
def jsOr (x : Option String) (d : String) : String :=
  match x with
  | none => d
  | some s => if s = "" then d else s

/-- JavaScript `s || d` for a string already known to be present. -/
def jsOrS (s d : String) : String :=
  if s = "" then d else s

/-- Global fixed-pattern replacement on character lists, the semantics of
JavaScript `s.replace(/pat/g, rep)` for a pattern with no metacharacters:
scan left to right, replace every non-overlapping occurrence.  `fuel`
bounds the recursion by the length of the scanned list. -/
def replaceAllAux (pat rep : List Char) : Nat → List Char → List Char
  | 0, s => s
  | _ + 1, [] => []
  | fuel + 1, c :: rest =>
    if pat.isPrefixOf (c :: rest) ∧ pat ≠ [] then
      rep ++ replaceAllAux pat rep fuel (List.drop (pat.length - 1) rest)
    else
      c :: replaceAllAux pat rep fuel rest

/-- JavaScript `s.replace(/pat/g, rep)` for a fixed (literal) pattern. -/
def replaceAll (s pat rep : String) : String :=
  ⟨replaceAllAux pat.data rep.data s.data.length s.data⟩

/-- Scan for the closing `**` of a lazy bold match `/\*\*(.*?)\*\*/`:
returns the (shortest) captured text and the remainder after the closing
`**`, or `none` when no closing `**` occurs before a newline (`.` does not
match `\n`) or the end of input. -/
def findCloseBold : List Char → Option (List Char × List Char)
  | '*' :: '*' :: rest => some ([], rest)
  | '\n' :: _ => none
  | c :: rest =>
    match findCloseBold rest with
    | some (cap, after) => some (c :: cap, after)
    | none => none
  | [] => none

/-- One global pass of JavaScript `content.replace(/\*\*(.*?)\*\*/g,
'<strong>$1</strong>')`: at each `**` opener, lazily match to the nearest
closing `**`; on failure advance one character, as the regex engine does. -/
def mdBoldAux : Nat → List Char → List Char
  | 0, s => s
  | _ + 1, [] => []
  | fuel + 1, '*' :: '*' :: rest =>
    match findCloseBold rest with
    | some (cap, after) =>
        "<strong>".data ++ cap ++ "</strong>".data ++ mdBoldAux fuel after
    | none => '*' :: mdBoldAux fuel ('*' :: rest)
  | fuel + 1, c :: rest => c :: mdBoldAux fuel rest

/-- `content.replace(/\*\*(.*?)\*\*/g, '<strong>$1</strong>')`. -/
def mdBold (s : String) : String :=
  ⟨mdBoldAux s.data.length s.data⟩

/-- Scan for the closing `*` of a lazy italic match `/\*(.*?)\*/`. -/
def findCloseEm : List Char → Option (List Char × List Char)
  | '*' :: rest => some ([], rest)
  | '\n' :: _ => none
  | c :: rest =>
    match findCloseEm rest with
    | some (cap, after) => some (c :: cap, after)
    | none => none
  | [] => none

/-- One global pass of JavaScript `content.replace(/\*(.*?)\*/g,
'<em>$1</em>')`. -/
def mdItalicAux : Nat → List Char → List Char
  | 0, s => s
  | _ + 1, [] => []
  | fuel + 1, '*' :: rest =>
    match findCloseEm rest with
    | some (cap, after) =>
        "<em>".data ++ cap ++ "</em>".data ++ mdItalicAux fuel after
    | none => '*' :: mdItalicAux fuel rest
  | fuel + 1, c :: rest => c :: mdItalicAux fuel rest

/-- `content.replace(/\*(.*?)\*/g, '<em>$1</em>')`. -/
def mdItalic (s : String) : String :=
  ⟨mdItalicAux s.data.length s.data⟩

/-- The markdown-to-HTML pass of `generateFallbackEmail` (server.js
527-530 and 553-556): bold, then italic, then `\n` to `<br>`. -/
def markdownToHtml (s : String) : String :=
  replaceAll (mdItalic (mdBold s)) "\n" "<br>"

/-! ## Data model -/

/-- Assessment answers: the open key-value map collected by the client
(script.js) and read by the server.  Only the fields actually consulted by
the server-side code are modelled; each is optional because the map is
open and any key may be absent (JavaScript `undefined`). -/
structure AssessmentData where
  name : Option String := none
  career_goal : Option String := none
  experience : Option String := none
  interest : Option String := none
  background : Option String := none
  context : Option String := none
deriving DecidableEq, Repr

/-- Course recommendation produced by `generateCourseRecommendation`
(server.js 600-648). -/
structure Recommendation where
  recommendedCourse : String
  reasoning : String
  expectedOutcome : String
  successStory : String
deriving DecidableEq, Repr

/-- One entry of the email template store `data/email-templates.json`:
a subject line and a body with named placeholders. -/
structure EmailTemplate where
  subject : String
  template : String
deriving DecidableEq, Repr

/-- The `{subject, content, cta}` value returned by the email content
renderer (`generateFallbackEmail` and `generatePersonalizedEmail`). -/
structure EmailResult where
  subject : String
  content : String
  cta : String
deriving DecidableEq, Repr

/-- Course recommendation rule (server.js 600-648): a four-way branch on
`interest` fixing course, reasoning, outcome and story, then an
experience-level adjustment appended to the reasoning.  `assessmentData`
absent (JavaScript `!assessmentData`) short-circuits to the default. -/
def generateCourseRecommendation (assessmentData : Option AssessmentData) :
    Recommendation :=
  match assessmentData with
  | none =>
      { recommendedCourse := "AI & Machine Learning Program"
        reasoning := "Our comprehensive program offers the best career advancement opportunities in the rapidly growing AI field."
        expectedOutcome := "Achieve a 2-3x salary increase and land roles at top tech companies within 12 months."
        successStory := "Like Rahul, who went from a software developer to AI Engineer at Google with a 120% salary increase." }
  | some ad =>
      let base :
          String × String × String × String :=
        if ad.interest = some "data_science" then
          ("Data Science & Analytics Program",
           "Your interest in data science makes this program perfect for developing analytical and statistical skills that are in high demand.",
           "Become a data science expert with skills in Python, SQL, machine learning, and statistical analysis. Expected salary range: ₹15-25 LPA.",
           "Like Priya, who transitioned from web development to Data Scientist at Microsoft with a 150% salary increase.")
        else if ad.interest = some "mlops" then
          ("MLOps & Deployment Program",
           "Your technical background makes you ideal for this specialized program focusing on production ML systems and deployment pipelines.",
           "Master MLOps tools and become an expert in deploying ML models at scale. Expected salary range: ₹18-30 LPA.",
           "Like Arjun, who became an MLOps Engineer at Amazon and doubled his salary within 8 months.")
        else if ad.interest = some "ai_research" then
          ("Advanced AI & Research Program",
           "Your interest in AI research aligns perfectly with our advanced program covering cutting-edge AI techniques and research methodologies.",
           "Develop expertise in advanced AI research and land roles at top research labs or AI-first companies. Expected salary range: ₹20-35 LPA.",
           "Like Dr. Karthik, who transitioned from software engineering to AI Research Scientist at OpenAI.")
        else
          ("AI & Machine Learning Program",
           "Based on your responses, this comprehensive program offers the best career advancement opportunities.",
           "Achieve a 2-3x salary increase and land roles at top tech companies within 12 months",
           "Like thousands of engineers who have successfully transitioned to AI roles with us.")
      let reasoning :=
        if ad.experience = some "beginner" then
          base.2.1 ++ " The program includes comprehensive foundation modules to ensure you build strong fundamentals before diving into advanced topics."
        else if ad.experience = some "expert" then
          base.2.1 ++ " With your advanced background, you can skip foundational modules and focus on cutting-edge techniques and specializations."
        else
          base.2.1
      { recommendedCourse := base.1
        reasoning := reasoning
        expectedOutcome := base.2.2.1
        successStory := base.2.2.2 }

/-- Four-phase roadmap record (server.js 657-662). -/
structure Roadmap where
  foundation : List String
  core : List String
  specialization : List String
  career : List String
deriving DecidableEq, Repr

/-- Roadmap selection by `interest` (server.js 664-782). -/
def roadmapForInterest (interest : Option String) : Roadmap :=
  if interest = some "data_science" then
    { foundation :=
        ["Master Python and SQL fundamentals",
         "Statistics and probability theory",
         "Data visualization with Matplotlib and Seaborn",
         "Pandas and NumPy for data manipulation"]
      core :=
        ["Machine learning algorithms (supervised and unsupervised)",
         "Feature engineering and model selection",
         "Deep learning with TensorFlow/PyTorch",
         "Time series analysis and forecasting",
         "A/B testing and experimental design"]
      specialization :=
        ["Advanced analytics and business intelligence",
         "Big data technologies (Spark, Hadoop)",
         "MLOps and model deployment",
         "Domain-specific projects (finance, healthcare, e-commerce)"]
      career :=
        ["Build impressive portfolio with 5+ real-world projects",
         "Mock interviews with industry experts",
         "Resume optimization for data science roles",
         "Networking with Scaler alumni network",
         "Job placement assistance with partner companies"] }
  else if interest = some "mlops" then
    { foundation :=
        ["DevOps fundamentals and containerization (Docker)",
         "Cloud platforms (AWS/GCP/Azure) basics",
         "Python programming and software engineering practices",
         "Version control with Git and MLflow"]
      core :=
        ["ML model lifecycle management",
         "CI/CD pipelines for ML projects",
         "Monitoring and logging for ML systems",
         "Kubernetes for ML deployment",
         "Infrastructure as Code (Terraform)"]
      specialization :=
        ["Advanced ML orchestration tools (Airflow, Kubeflow)",
         "Model serving and API development",
         "Edge deployment and optimization",
         "Security and compliance in ML systems"]
      career :=
        ["Build end-to-end MLOps pipeline projects",
         "Contribute to open-source ML tools",
         "Industry certifications (AWS ML, GCP ML)",
         "Technical interview preparation",
         "Job placement with top tech companies"] }
  else if interest = some "ai_research" then
    { foundation :=
        ["Advanced mathematics (linear algebra, calculus)",
         "Research methodology and academic writing",
         "Python and deep learning frameworks",
         "Literature review and paper analysis"]
      core :=
        ["Advanced neural network architectures",
         "Natural language processing and computer vision",
         "Reinforcement learning and optimization",
         "Research project execution",
         "Conference paper writing and submission"]
      specialization :=
        ["Cutting-edge AI research areas (LLMs, multimodal AI)",
         "Research collaboration and mentorship",
         "Grant writing and funding acquisition",
         "Industry-academia partnerships"]
      career :=
        ["Publish papers in top-tier conferences",
         "Build research portfolio and online presence",
         "Network with research community",
         "Prepare for research scientist interviews",
         "Transition to research roles in industry or academia"] }
  else
    { foundation :=
        ["Python programming mastery",
         "Mathematics for AI (statistics, linear algebra)",
         "Data structures and algorithms review",
         "Introduction to machine learning concepts"]
      core :=
        ["Supervised learning algorithms and implementation",
         "Unsupervised learning and clustering",
         "Deep learning and neural networks",
         "Computer vision and image processing",
         "Natural language processing basics"]
      specialization :=
        ["Advanced deep learning architectures",
         "MLOps and production deployment",
         "AI ethics and responsible AI development",
         "Industry-specific AI applications"]
      career :=
        ["Capstone project with real industry mentor",
         "Technical interview preparation",
         "Portfolio development and GitHub optimization",
         "Mock interviews and salary negotiation",
         "Job placement with 100+ partner companies"] }

/-- Timeline adjustment by experience level (server.js 784-790). -/
def roadmapTimeline (experience : Option String) : String :=
  if experience = some "beginner" then
    "15 months (includes extended foundation period)"
  else if experience = some "expert" then
    "9 months (accelerated track available)"
  else
    "12 months"

/-- Bulleting of one roadmap phase, the JavaScript
`roadmap.phase.map(item => ... ).join('\n')` (server.js 797 etc.). -/
def bulletList (items : List String) : String :=
  String.intercalate "\n" (items.map (fun item => "• " ++ item))

/-- Detailed roadmap string (server.js 653-819).  The `recommendation`
argument is accepted, as in the source, but never read.  The result is
the source's template literal, which opens with a newline. -/
def generateDetailedRoadmap (assessmentData : Option AssessmentData)
    (_recommendation : Recommendation) : String :=
  let interest := assessmentData.bind AssessmentData.interest
  let experience := assessmentData.bind AssessmentData.experience
  let roadmap := roadmapForInterest interest
  let timeline := roadmapTimeline experience
  "\n**Timeline:** " ++ timeline ++ "\n\n**Phase 1: Foundation Building (Months 1-3)**\n"
    ++ bulletList roadmap.foundation
    ++ "\n\n**Phase 2: Core Skills Development (Months 4-8)**\n"
    ++ bulletList roadmap.core
    ++ "\n\n**Phase 3: Specialization & Advanced Topics (Months 9-11)**\n"
    ++ bulletList roadmap.specialization
    ++ "\n\n**Phase 4: Career Transition & Job Placement (Month 12+)**\n"
    ++ bulletList roadmap.career
    ++ "\n\n**Hands-on Projects Included:**\n• Build 8-10 real-world projects for your portfolio\n• Work on live industry problems with mentor guidance\n• Collaborate with peers on team projects\n• Present your work to industry experts\n\n**Support Throughout Your Journey:**\n• Weekly 1-on-1 mentorship sessions\n• 24/7 doubt resolution support\n• Peer learning groups and study circles\n• Industry networking events and job fairs"

/-! ## Email content renderer -/

/-- JavaScript object key access `templates[templateKey]` on the parsed
template store. -/
def lookupTemplate (key : String) :
    List (String × EmailTemplate) → Option EmailTemplate
  | [] => none
  | (k, t) :: rest => if k = key then some t else lookupTemplate key rest

/-- Modelled from the spec: the template store `data/email-templates.json`
is not under `src/` (server.js 495 only loads it).  The spec describes it
as a read-only mapping from sequence-stage key (`welcome`,
`assessment_results`, `success_stories`, `course_deep_dive`,
`social_proof`, `final_cta`) to a subject line and a body template
containing named placeholders (`\x7b\x7bname\x7d\x7d`,
`\x7b\x7brecommendedCourse\x7d\x7d`, `\x7b\x7breasoning\x7d\x7d`,
`\x7b\x7bexpectedOutcome\x7d\x7d`, `\x7b\x7bdetailedRoadmap\x7d\x7d`,
`\x7b\x7bsuccessStory\x7d\x7d`, `\x7b\x7bctaLink\x7d\x7d`,
`\x7b\x7badvisorName\x7d\x7d`).  This and the next five definitions model
its six entries; `emailTemplates` below assembles the store. -/
def welcomeTemplate : EmailTemplate :=
  { subject := "Welcome to Your AI Career Journey!"
    template := "Hi \x7b\x7bname\x7d\x7d,\n\nThank you for taking our career assessment.\n\n**Your Recommended Path:** \x7b\x7brecommendedCourse\x7d\x7d\n\n\x7b\x7breasoning\x7d\x7d\n\nBook a free consultation: \x7b\x7bctaLink\x7d\x7d\n\nBest regards,\n\x7b\x7badvisorName\x7d\x7d" }

/-- Modelled from the spec: the `assessment_results` entry of the store. -/
def assessmentResultsTemplate : EmailTemplate :=
  { subject := "Your Personalized Assessment Results"
    template := "Hi \x7b\x7bname\x7d\x7d,\n\n**Your Recommended Path:** \x7b\x7brecommendedCourse\x7d\x7d\n\n**Why this fits you:**\n\x7b\x7breasoning\x7d\x7d\n\n**Expected Outcome:**\n\x7b\x7bexpectedOutcome\x7d\x7d\n\n**Your Roadmap:**\x7b\x7bdetailedRoadmap\x7d\x7d\n\n**Success Story:**\n\x7b\x7bsuccessStory\x7d\x7d\n\nBook now: \x7b\x7bctaLink\x7d\x7d\n\n\x7b\x7badvisorName\x7d\x7d" }

/-- Modelled from the spec: the `success_stories` entry of the store. -/
def successStoriesTemplate : EmailTemplate :=
  { subject := "How Engineers Like You Broke Into AI"
    template := "Hi \x7b\x7bname\x7d\x7d,\n\n\x7b\x7bsuccessStory\x7d\x7d\n\nYour path: \x7b\x7brecommendedCourse\x7d\x7d\n\nTalk to us: \x7b\x7bctaLink\x7d\x7d\n\n\x7b\x7badvisorName\x7d\x7d" }

/-- Modelled from the spec: the `course_deep_dive` entry of the store. -/
def courseDeepDiveTemplate : EmailTemplate :=
  { subject := "Inside Your Recommended Program"
    template := "Hi \x7b\x7bname\x7d\x7d,\n\nA deep dive into **\x7b\x7brecommendedCourse\x7d\x7d**:\n\x7b\x7bdetailedRoadmap\x7d\x7d\n\nQuestions? \x7b\x7bctaLink\x7d\x7d\n\n\x7b\x7badvisorName\x7d\x7d" }

/-- Modelled from the spec: the `social_proof` entry of the store. -/
def socialProofTemplate : EmailTemplate :=
  { subject := "50,000+ Engineers Already Made the Switch"
    template := "Hi \x7b\x7bname\x7d\x7d,\n\n\x7b\x7bsuccessStory\x7d\x7d\n\n**Expected Outcome:** \x7b\x7bexpectedOutcome\x7d\x7d\n\nJoin them: \x7b\x7bctaLink\x7d\x7d\n\n\x7b\x7badvisorName\x7d\x7d" }

/-- Modelled from the spec: the `final_cta` entry of the store. -/
def finalCtaTemplate : EmailTemplate :=
  { subject := "Last Chance: Your AI Career Roadmap Awaits"
    template := "Hi \x7b\x7bname\x7d\x7d,\n\nThis is your final reminder about **\x7b\x7brecommendedCourse\x7d\x7d**.\n\n\x7b\x7breasoning\x7d\x7d\n\nBook today: \x7b\x7bctaLink\x7d\x7d\n\n\x7b\x7badvisorName\x7d\x7d" }

/-- Modelled from the spec: the full template store, keyed by
sequence-stage name. -/
def emailTemplates : List (String × EmailTemplate) :=
  [("welcome", welcomeTemplate),
   ("assessment_results", assessmentResultsTemplate),
   ("success_stories", successStoriesTemplate),
   ("course_deep_dive", courseDeepDiveTemplate),
   ("social_proof", socialProofTemplate),
   ("final_cta", finalCtaTemplate)]

/-- Value substituted for the `\x7b\x7bname\x7d\x7d` placeholder
(server.js 517): `assessmentData?.name || 'there'`. -/
def nameValue (assessmentData : Option AssessmentData) : String :=
  jsOr (assessmentData.bind AssessmentData.name) "there"

/-- Placeholder substitution and markdown pass applied to a found
template body (server.js 516-530). -/
def renderTemplate (body : String) (assessmentData : Option AssessmentData)
    (recommendation : Recommendation) (detailedRoadmap : String) : String :=
  markdownToHtml
    (replaceAll
      (replaceAll
        (replaceAll
          (replaceAll
            (replaceAll
              (replaceAll
                (replaceAll
                  (replaceAll body "\x7b\x7bname\x7d\x7d"
                    (nameValue assessmentData))
                  "\x7b\x7brecommendedCourse\x7d\x7d"
                  recommendation.recommendedCourse)
                "\x7b\x7breasoning\x7d\x7d" recommendation.reasoning)
              "\x7b\x7bexpectedOutcome\x7d\x7d" recommendation.expectedOutcome)
            "\x7b\x7bdetailedRoadmap\x7d\x7d" detailedRoadmap)
          "\x7b\x7bsuccessStory\x7d\x7d"
          (jsOrS recommendation.successStory
            "Join thousands of engineers who have successfully transitioned to AI roles with average salary increases of 80%."))
        "\x7b\x7bctaLink\x7d\x7d" "https://calendly.com/scaler-ai/consultation")
      "\x7b\x7badvisorName\x7d\x7d" "Sarah Chen")

/-- Hardcoded ultimate fallback email used when the template store has no
entry for the resolved key (server.js 548-594). -/
def ultimateFallbackEmail (assessmentData : Option AssessmentData)
    (recommendation : Recommendation) (detailedRoadmap : String) :
    EmailResult :=
  let formattedRoadmap := markdownToHtml detailedRoadmap
  { subject := "Your Personalized AI Career Roadmap"
    content :=
      "Hi " ++ nameValue assessmentData ++ "!<br><br>\n\nThank you for completing our career assessment. Based on your responses, we've created a personalized roadmap for your AI career transformation.<br><br>\n\n<strong>Your Recommended Path:</strong> "
        ++ recommendation.recommendedCourse
        ++ "<br><br>\n\n<strong>Why this is perfect for you:</strong><br>\n"
        ++ recommendation.reasoning
        ++ "<br><br>\n\n<strong>Expected Outcome:</strong><br>\n"
        ++ recommendation.expectedOutcome
        ++ "<br><br>\n\n<strong>Your Personalized Learning Roadmap:</strong><br>\n"
        ++ formattedRoadmap
        ++ "<br><br>\n\n<strong>Success Story:</strong><br>\n"
        ++ recommendation.successStory
        ++ "<br><br>\n\n<strong>What's Next:</strong><br>\n✅ Review your detailed career roadmap above<br>\n📞 Book a free 1-on-1 consultation with our career advisor<br>\n🎯 Get personalized guidance on your learning journey<br>\n💼 Access exclusive job opportunities in our partner network<br><br>\n\nOur team will contact you within 24 hours to discuss your next steps.<br><br>\n\nBest regards,<br>\nThe Scaler Team<br><br>\n\nP.S. Over 50,000 engineers have transformed their careers with us. You're next! 🚀"
    cta := "Schedule Your Consultation" }

/-- Fallback email renderer (server.js 483-595).  `templates` is the
parsed template store: the source loads `data/email-templates.json` inside
a try/catch, leaving `templates = \x7b\x7d` (here `[]`) when the read or
parse fails.  The template key collapses every non-`welcome` sequence type
to `assessment_results` (server.js 507). -/
def generateFallbackEmail (templates : List (String × EmailTemplate))
    (assessmentData : Option AssessmentData) (sequenceType : String) :
    EmailResult :=
  let recommendation := generateCourseRecommendation assessmentData
  let templateKey :=
    if sequenceType = "welcome" then "welcome" else "assessment_results"
  match lookupTemplate templateKey templates with
  | some template =>
      let detailedRoadmap := generateDetailedRoadmap assessmentData recommendation
      { subject := template.subject
        content := renderTemplate template.template assessmentData
          recommendation detailedRoadmap
        cta := "Book Your Free Consultation" }
  | none =>
      let detailedRoadmap := generateDetailedRoadmap assessmentData recommendation
      ultimateFallbackEmail assessmentData recommendation detailedRoadmap

/-- Personalized email generation (server.js 463-478).  `aiResult = some r`
models the OpenAI path completing (API key configured, call and
`JSON.parse` both succeed, producing `r`); `none` models the key being
absent or any error in that path, both of which fall through to
`generateFallbackEmail`. -/
def generatePersonalizedEmail (aiResult : Option EmailResult)
    (templates : List (String × EmailTemplate))
    (assessmentData : Option AssessmentData) (sequenceType : String) :
    EmailResult :=
  match aiResult with
  | some r => r
  | none => generateFallbackEmail templates assessmentData sequenceType

/-! ## Lead capture and the email sequence scheduler -/

/-- The body of a `POST /api/leads` request (server.js 193-256;
client shape in script.js 259-265). -/
structure LeadBody where
  name : String
  email : String
  phone : Option String := none
  assessmentAnswers : Option AssessmentData := none
deriving DecidableEq, Repr

/-- A stored lead record: the generated `leadId` plus the request body
fields, with `status` and `source` fixed at creation (server.js 210-226,
models/Lead.js). -/
structure StoredLead where
  leadId : String
  name : String
  email : String
  phone : Option String := none
  assessmentAnswers : Option AssessmentData := none
  status : String := "new"
  source : String := "funnelmind"
deriving DecidableEq, Repr

/-- Response of the lead-capture endpoint: `400` with a message, `500`
with a message, or success with the new `leadId`. -/
inductive CaptureResponse where
  | badRequest (msg : String)
  | serverError (msg : String)
  | ok (leadId : String)
deriving DecidableEq, Repr

/-- In-memory (fallback) lead capture (server.js 193-244, disconnected
branch): validate the required fields by JavaScript truthiness, then push
the lead onto `fallbackLeads` unconditionally — no duplicate-email check
of any kind.  Returns the response and the updated store. -/
def captureLeadFallback (store : List StoredLead) (body : LeadBody)
    (leadId : String) : CaptureResponse × List StoredLead :=
  if body.name = "" then (.badRequest "name is required", store)
  else if body.email = "" then (.badRequest "email is required", store)
  else
    (.ok leadId,
     store ++ [{ leadId := leadId, name := body.name, email := body.email
                 phone := body.phone
                 assessmentAnswers := body.assessmentAnswers }])

/-- Error classification in the lead endpoint's catch block (server.js
246-255): a thrown error whose `code` is the Mongo duplicate-key code
11000 becomes a 400 "Email already exists"; anything else becomes a
generic 500. -/
def handleLeadError (code : Option Nat) : CaptureResponse :=
  if code = some 11000 then .badRequest "Email already exists"
  else .serverError "Failed to process lead"

/-- MongoDB-backed lead capture (server.js 208-216 together with
models/Lead.js): the Lead schema declares `unique: true` only on `leadId`
(the `email` field is `lowercase: true` with a non-unique index), so the
save rejects with a duplicate-key error (Mongo code 11000) exactly when
the generated `leadId` collides, never for a repeated email. -/
def captureLeadMongo (store : List StoredLead) (body : LeadBody)
    (leadId : String) : CaptureResponse × List StoredLead :=
  if body.name = "" then (.badRequest "name is required", store)
  else if body.email = "" then (.badRequest "email is required", store)
  else if store.any (fun l => l.leadId = leadId) then
    (handleLeadError (some 11000), store)
  else
    (.ok leadId,
     store ++ [{ leadId := leadId, name := body.name
                 email := body.email.toLower
                 phone := body.phone
                 assessmentAnswers := body.assessmentAnswers }])

/-- The payload handed to `sendEmail` by `triggerWelcomeEmail`
(server.js 842-852) and by each scheduled send (server.js 868-874). -/
structure EmailPayload where
  «to» : String
  name : String
  subject : String
  content : String
  type : String
deriving DecidableEq, Repr

/-- Welcome email dispatch at capture time (server.js 842-852): the
renderer receives only `leadData.assessmentAnswers` and the sequence type
`"welcome"`; the lead's own `name` is used solely as the payload's `name`
field for the transport wrapper. -/
def triggerWelcomeEmail (aiResult : Option EmailResult)
    (templates : List (String × EmailTemplate)) (leadData : StoredLead) :
    EmailPayload :=
  let emailContent :=
    generatePersonalizedEmail aiResult templates leadData.assessmentAnswers
      "welcome"
  { «to» := leadData.email, name := leadData.name
    subject := emailContent.subject, content := emailContent.content
    type := "welcome" }

/-- The fixed follow-up schedule armed by `scheduleEmailSequence`
(server.js 856-862): delay in milliseconds paired with the sequence-stage
key, one `setTimeout` per entry. -/
def emailSchedule : List (Nat × String) :=
  [(24 * 60 * 60 * 1000, "assessment_results"),
   (3 * 24 * 60 * 60 * 1000, "success_stories"),
   (5 * 24 * 60 * 60 * 1000, "course_deep_dive"),
   (7 * 24 * 60 * 60 * 1000, "social_proof"),
   (10 * 24 * 60 * 60 * 1000, "final_cta")]

/-- All dispatch attempts resulting from capturing one lead at time `t`
(milliseconds): the synchronous welcome send inside the capture request
(server.js 235) followed by the timers armed by `scheduleEmailSequence`
(server.js 238, 854-883), each at `t` plus its fixed delay. -/
def leadDispatchSchedule (t : Nat) : List (Nat × String) :=
  (t, "welcome") :: emailSchedule.map (fun p => (t + p.1, p.2))

/-! ## Email dispatcher (services/gmail-service.js) -/

/-- Outcome of the SMTP transport call `this.transporter.sendMail`
(gmail-service.js 85): success carries the transport's message id; `err`
models the call throwing. -/
inductive TransportOutcome where
  | ok (messageId : String)
  | err
deriving DecidableEq, Repr

/-- The result object returned by `GmailService.sendEmail` on every path:
the gmail-path result (gmail-service.js 91-98) and the mock result
(gmail-service.js 228-236) share the fields `success`, `messageId`, `to`,
`subject`, `provider`, `timestamp`; only the mock result carries the
extra `mock: true` marker, modelled here as a `Bool` that the gmail path
leaves `false`. -/
structure EmailSendResult where
  success : Bool
  messageId : String
  «to» : String
  subject : String
  provider : String
  mock : Bool := false
  timestamp : Nat
deriving DecidableEq, Repr

/-- Mock email response (gmail-service.js 220-237): always succeeds with
provider "mock" and a generated id built from the clock and a random
suffix (`mock_${Date.now()}_${...}`, gmail-service.js 221). -/
def mockEmailResponse (now : Nat) (rand : String) (payload : EmailPayload) :
    EmailSendResult :=
  { success := true
    messageId := "mock_" ++ toString now ++ "_" ++ rand
    «to» := payload.to
    subject := payload.subject
    provider := "mock"
    mock := true
    timestamp := now }

/-- `GmailService.sendEmail` (gmail-service.js 67-107): when the service
is unconfigured (missing `GMAIL_USER`/`GMAIL_APP_PASSWORD`) it returns
the mock response immediately; when configured it attempts the transport
send and returns the gmail-shaped success result, falling back to the
mock response if the transport call throws. -/
def gmailSendEmail (isConfigured : Bool) (transport : TransportOutcome)
    (now : Nat) (rand : String) (payload : EmailPayload) :
    EmailSendResult :=
  if !isConfigured then
    mockEmailResponse now rand payload
  else
    match transport with
    | .ok mid =>
        { success := true
          messageId := mid
          «to» := payload.to
          subject := payload.subject
          provider := "gmail"
          timestamp := now }
    | .err => mockEmailResponse now rand payload

/-! ## Analytics (server.js 892-921, models/Analytics.js) -/

/-- The four counters the increment operation can target
(server.js 434-444, 892). -/
inductive AnalyticsField where
  | pageViews
  | assessmentStarts
  | assessmentCompletions
  | leadCaptures
deriving DecidableEq, Repr

/-- The analytics singleton: four monotonically incremented counters and
the derived `conversionRate` (models/Analytics.js 3-35, server.js 38-44).
Counters are naturals; the rate is a rational because the source only
divides under an `assessmentStarts > 0` guard. -/
structure Analytics where
  pageViews : Nat := 0
  assessmentStarts : Nat := 0
  assessmentCompletions : Nat := 0
  leadCaptures : Nat := 0
  conversionRate : ℚ := 0
deriving DecidableEq, Repr

/-- The zeroed singleton lazily created on first read
(models/Analytics.js 38-45) and the initial in-memory mirror
(server.js 38-44). -/
def initialAnalytics : Analytics := {}

/-- `analytics[field]++`. -/
def incrementField (field : AnalyticsField) (a : Analytics) : Analytics :=
  match field with
  | .pageViews => { a with pageViews := a.pageViews + 1 }
  | .assessmentStarts => { a with assessmentStarts := a.assessmentStarts + 1 }
  | .assessmentCompletions =>
      { a with assessmentCompletions := a.assessmentCompletions + 1 }
  | .leadCaptures => { a with leadCaptures := a.leadCaptures + 1 }

/-- `Analytics.updateConversionRate` (models/Analytics.js 48-53):
recompute `conversionRate = leadCaptures / assessmentStarts * 100` only
when `assessmentStarts > 0`. -/
def updateConversionRate (a : Analytics) : Analytics :=
  if a.assessmentStarts > 0 then
    { a with conversionRate :=
        (a.leadCaptures : ℚ) / (a.assessmentStarts : ℚ) * 100 }
  else a

/-- MongoDB branch of `updateAnalytics` (server.js 896-905): increment
the field, then recompute the rate via `updateConversionRate` when the
field is `leadCaptures` or `assessmentCompletions`. -/
def updateAnalyticsMongo (field : AnalyticsField) (a : Analytics) :
    Analytics :=
  let a' := incrementField field a
  if field = .leadCaptures ∨ field = .assessmentCompletions then
    updateConversionRate a'
  else a'

/-- In-memory fallback branch of `updateAnalytics` (server.js 906-915):
increment the field, then recompute the rate inline under the same
`assessmentStarts > 0` guard when the field is `leadCaptures` or
`assessmentCompletions`. -/
def updateAnalyticsFallback (field : AnalyticsField) (a : Analytics) :
    Analytics :=
  let a' := incrementField field a
  if field = .leadCaptures ∨ field = .assessmentCompletions then
    (if a'.assessmentStarts > 0 then
      { a' with conversionRate :=
          (a'.leadCaptures : ℚ) / (a'.assessmentStarts : ℚ) * 100 }
    else a')
  else a'

/-- One invocation of `updateAnalytics` against the in-memory mirror:
either the normal fallback branch (server.js 906-915) or the catch
branch that increments the mirror without recomputing the rate after a
persistent-backend error (server.js 916-920). -/
inductive AnalyticsOp where
  | track (field : AnalyticsField)
  | trackOnError (field : AnalyticsField)
deriving DecidableEq, Repr

/-- Apply one analytics operation to the in-memory mirror. -/
def stepAnalytics (a : Analytics) (op : AnalyticsOp) : Analytics :=
  match op with
  | .track field => updateAnalyticsFallback field a
  | .trackOnError field => incrementField field a

/-- The in-memory analytics state after a sequence of operations starting
from the zeroed mirror. -/
def runAnalytics (ops : List AnalyticsOp) : Analytics :=
  ops.foldl stepAnalytics initialAnalytics

/-- Reads the timeline line back out of a formatted roadmap string: the
roadmap opens with the 15 characters of a newline followed by
`**Timeline:** `, then the timeline text up to the following newline. -/
def extractTimeline (s : String) : String :=
  ⟨(s.data.drop 15).takeWhile (fun c => c != '\n')⟩

/-! ## Helper lemmas -/

theorem ne_empty_of_data_ne_nil {s : String} (h : s.data ≠ []) : s ≠ "" := by
  intro h'
  subst h'
  exact h rfl

theorem data_ne_nil_of_ne_empty {s : String} (h : s ≠ "") : s.data ≠ [] := by
  intro hd
  apply h
  cases s with
  | mk l =>
      simp only [String.data] at hd
      subst hd
      rfl

theorem append_ne_empty_left (a b : String) (ha : a ≠ "") : a ++ b ≠ "" := by
  apply ne_empty_of_data_ne_nil
  rw [String.data_append]
  exact List.append_ne_nil_of_left_ne_nil (data_ne_nil_of_ne_empty ha) _

theorem jsOr_ne_empty (x : Option String) (d : String) (hd : d ≠ "") :
    jsOr x d ≠ "" := by
  cases x with
  | none => exact hd
  | some s =>
      simp only [jsOr]
      split
      · exact hd
      · assumption

theorem jsOrS_ne_empty (s d : String) (hd : d ≠ "") : jsOrS s d ≠ "" := by
  unfold jsOrS
  split
  · exact hd
  · assumption

theorem replaceAllAux_ne_nil (pat rep : List Char) (hrep : rep ≠ [])
    (fuel : Nat) (s : List Char) (hs : s ≠ []) :
    replaceAllAux pat rep fuel s ≠ [] := by
  cases fuel with
  | zero => simpa [replaceAllAux] using hs
  | succ n =>
    cases s with
    | nil => exact absurd rfl hs
    | cons c rest =>
      simp only [replaceAllAux]
      split
      · exact List.append_ne_nil_of_left_ne_nil hrep _
      · simp

theorem replaceAll_ne_empty (s pat rep : String) (hs : s ≠ "")
    (hrep : rep ≠ "") : replaceAll s pat rep ≠ "" := by
  apply ne_empty_of_data_ne_nil
  exact replaceAllAux_ne_nil _ _ (data_ne_nil_of_ne_empty hrep) _ _
    (data_ne_nil_of_ne_empty hs)

theorem mdBoldAux_ne_nil (fuel : Nat) (s : List Char) (hs : s ≠ []) :
    mdBoldAux fuel s ≠ [] := by
  cases fuel with
  | zero => simpa [mdBoldAux] using hs
  | succ n =>
    cases s with
    | nil => exact absurd rfl hs
    | cons c rest =>
      unfold mdBoldAux
      split
      · exact hs
      · simp_all
      · split <;> simp
      · simp

theorem mdBold_ne_empty (s : String) (hs : s ≠ "") : mdBold s ≠ "" := by
  apply ne_empty_of_data_ne_nil
  exact mdBoldAux_ne_nil _ _ (data_ne_nil_of_ne_empty hs)

theorem mdItalicAux_ne_nil (fuel : Nat) (s : List Char) (hs : s ≠ []) :
    mdItalicAux fuel s ≠ [] := by
  cases fuel with
  | zero => simpa [mdItalicAux] using hs
  | succ n =>
    cases s with
    | nil => exact absurd rfl hs
    | cons c rest =>
      unfold mdItalicAux
      split
      · exact hs
      · simp_all
      · split <;> simp
      · simp

theorem mdItalic_ne_empty (s : String) (hs : s ≠ "") : mdItalic s ≠ "" := by
  apply ne_empty_of_data_ne_nil
  exact mdItalicAux_ne_nil _ _ (data_ne_nil_of_ne_empty hs)

theorem markdownToHtml_ne_empty (s : String) (hs : s ≠ "") :
    markdownToHtml s ≠ "" :=
  replaceAll_ne_empty _ _ _ (mdItalic_ne_empty _ (mdBold_ne_empty _ hs))
    (by decide)

theorem recommendedCourse_ne_empty (ad : Option AssessmentData) :
    (generateCourseRecommendation ad).recommendedCourse ≠ "" := by
  cases ad with
  | none => decide
  | some a =>
      simp only [generateCourseRecommendation]
      split_ifs <;> decide

theorem reasoning_ne_empty (ad : Option AssessmentData) :
    (generateCourseRecommendation ad).reasoning ≠ "" := by
  cases ad with
  | none => decide
  | some a =>
      simp only [generateCourseRecommendation]
      split_ifs <;> decide

theorem expectedOutcome_ne_empty (ad : Option AssessmentData) :
    (generateCourseRecommendation ad).expectedOutcome ≠ "" := by
  cases ad with
  | none => decide
  | some a =>
      simp only [generateCourseRecommendation]
      split_ifs <;> decide

theorem generateDetailedRoadmap_ne_empty (ad : Option AssessmentData)
    (rec : Recommendation) : generateDetailedRoadmap ad rec ≠ "" := by
  simp only [generateDetailedRoadmap]
  repeat' apply append_ne_empty_left
  decide

theorem renderTemplate_ne_empty (body : String)
    (ad : Option AssessmentData) (rec : Recommendation) (roadmap : String)
    (hbody : body ≠ "") (hroadmap : roadmap ≠ "")
    (hcourse : rec.recommendedCourse ≠ "") (hreason : rec.reasoning ≠ "")
    (houtcome : rec.expectedOutcome ≠ "") :
    renderTemplate body ad rec roadmap ≠ "" := by
  unfold renderTemplate
  apply markdownToHtml_ne_empty
  apply replaceAll_ne_empty _ _ _ _ (by decide)
  apply replaceAll_ne_empty _ _ _ _ (by decide)
  apply replaceAll_ne_empty _ _ _ _ (jsOrS_ne_empty _ _ (by decide))
  apply replaceAll_ne_empty _ _ _ _ hroadmap
  apply replaceAll_ne_empty _ _ _ _ houtcome
  apply replaceAll_ne_empty _ _ _ _ hreason
  apply replaceAll_ne_empty _ _ _ _ hcourse
  apply replaceAll_ne_empty _ _ _ _ (jsOr_ne_empty _ _ (by decide))
  exact hbody

set_option maxRecDepth 10000

theorem generateFallbackEmail_store_eq (ad : Option AssessmentData)
    (st : String) :
    generateFallbackEmail emailTemplates ad st
      = { subject := (if st = "welcome" then welcomeTemplate
                      else assessmentResultsTemplate).subject
          content := renderTemplate
            (if st = "welcome" then welcomeTemplate
             else assessmentResultsTemplate).template ad
            (generateCourseRecommendation ad)
            (generateDetailedRoadmap ad (generateCourseRecommendation ad))
          cta := "Book Your Free Consultation" } := by
  unfold generateFallbackEmail
  by_cases hst : st = "welcome"
  · rw [hst]
    rfl
  · simp only [if_neg hst]
    rfl

theorem generateFallbackEmail_content_ne_empty_store
    (ad : Option AssessmentData) (st : String) :
    (generateFallbackEmail emailTemplates ad st).content ≠ "" := by
  rw [generateFallbackEmail_store_eq]
  refine renderTemplate_ne_empty _ _ _ _ ?hb
    (generateDetailedRoadmap_ne_empty _ _) (recommendedCourse_ne_empty _)
    (reasoning_ne_empty _) (expectedOutcome_ne_empty _)
  by_cases hst : st = "welcome"
  · rw [if_pos hst]
    decide
  · rw [if_neg hst]
    decide

theorem generateFallbackEmail_content_ne_empty_nil
    (ad : Option AssessmentData) (st : String) :
    (generateFallbackEmail [] ad st).content ≠ "" := by
  show (ultimateFallbackEmail ad (generateCourseRecommendation ad)
      (generateDetailedRoadmap ad (generateCourseRecommendation ad))).content ≠ ""
  simp only [ultimateFallbackEmail]
  repeat' apply append_ne_empty_left
  decide

theorem updateAnalyticsFallback_pageViews (b : Analytics) :
    updateAnalyticsFallback .pageViews b
      = { b with pageViews := b.pageViews + 1 } := rfl

theorem updateAnalyticsFallback_starts (b : Analytics) :
    updateAnalyticsFallback .assessmentStarts b
      = { b with assessmentStarts := b.assessmentStarts + 1 } := rfl

theorem updateAnalyticsFallback_completions (b : Analytics) :
    updateAnalyticsFallback .assessmentCompletions b
      = if b.assessmentStarts > 0 then
          { b with assessmentCompletions := b.assessmentCompletions + 1,
                   conversionRate :=
                     (b.leadCaptures : ℚ) / (b.assessmentStarts : ℚ) * 100 }
        else
          { b with assessmentCompletions := b.assessmentCompletions + 1 } := rfl

theorem updateAnalyticsFallback_leadCaptures (b : Analytics) :
    updateAnalyticsFallback .leadCaptures b
      = if b.assessmentStarts > 0 then
          { b with leadCaptures := b.leadCaptures + 1,
                   conversionRate :=
                     ((b.leadCaptures + 1 : Nat) : ℚ)
                       / (b.assessmentStarts : ℚ) * 100 }
        else { b with leadCaptures := b.leadCaptures + 1 } := rfl

theorem stepAnalytics_invariant (a : Analytics) (op : AnalyticsOp)
    (h1 : 0 ≤ a.conversionRate)
    (h2 : a.assessmentStarts = 0 → a.conversionRate = 0) :
    0 ≤ (stepAnalytics a op).conversionRate
    ∧ ((stepAnalytics a op).assessmentStarts = 0 →
        (stepAnalytics a op).conversionRate = 0) := by
  cases op with
  | track f =>
      cases f with
      | pageViews => exact ⟨h1, h2⟩
      | assessmentStarts =>
          refine ⟨h1, fun h0 => ?_⟩
          simp only [stepAnalytics, updateAnalyticsFallback_starts] at h0
          omega
      | assessmentCompletions =>
          simp only [stepAnalytics, updateAnalyticsFallback_completions]
          split_ifs with hpos
          · refine ⟨by positivity, fun h0 => ?_⟩
            simp only at h0
            omega
          · exact ⟨h1, h2⟩
      | leadCaptures =>
          simp only [stepAnalytics, updateAnalyticsFallback_leadCaptures]
          split_ifs with hpos
          · refine ⟨by positivity, fun h0 => ?_⟩
            simp only at h0
            omega
          · exact ⟨h1, h2⟩
  | trackOnError f =>
      cases f with
      | pageViews => exact ⟨h1, h2⟩
      | assessmentStarts =>
          refine ⟨h1, fun h0 => ?_⟩
          simp only [stepAnalytics, incrementField] at h0
          omega
      | assessmentCompletions => exact ⟨h1, h2⟩
      | leadCaptures => exact ⟨h1, h2⟩

/-! ## Claim theorems -/

/-- C1 (counterexample): the claim says the scheduler arms exactly four
deferred dispatch attempts, but `scheduleEmailSequence` arms one timer
per entry of its five-element schedule list. -/
theorem email_schedule_count_counterexample : emailSchedule.length ≠ 4 := by
  decide

/-- C1 (amended): capturing a lead at time `t` produces exactly one
immediate welcome dispatch at `t` and exactly five scheduled dispatch
attempts, with stage keys and offsets `assessment_results` at `t`+24h,
`success_stories` at `t`+3d, `course_deep_dive` at `t`+5d,
`social_proof` at `t`+7d and `final_cta` at `t`+10d (in milliseconds). -/
theorem email_sequence_dispatches (t : Nat) :
    leadDispatchSchedule t
      = [(t, "welcome"),
         (t + 86400000, "assessment_results"),
         (t + 259200000, "success_stories"),
         (t + 432000000, "course_deep_dive"),
         (t + 604800000, "social_proof"),
         (t + 864000000, "final_cta")] := by
  simp [leadDispatchSchedule, emailSchedule]

/-- C1 witness: the amended schedule at capture time 0. -/
theorem email_sequence_dispatches_witness :
    leadDispatchSchedule 0
      = [(0, "welcome"),
         (86400000, "assessment_results"),
         (259200000, "success_stories"),
         (432000000, "course_deep_dive"),
         (604800000, "social_proof"),
         (864000000, "final_cta")] := by
  simpa using email_sequence_dispatches 0

/-- C2 (counterexample): two lead captures carrying the same email both
succeed — the in-memory store performs no duplicate check at all, and the
MongoDB-backed save only rejects on a `leadId` collision (the Lead schema
has no unique constraint on `email`), so neither request fails with
"Email already exists". -/
theorem duplicate_email_counterexample :
    (captureLeadFallback []
        { name := "Alice", email := "alice@example.com" } "lead_1").1
      = .ok "lead_1"
    ∧ (captureLeadFallback
        (captureLeadFallback []
          { name := "Alice", email := "alice@example.com" } "lead_1").2
        { name := "Alicia", email := "alice@example.com" } "lead_2").1
      = .ok "lead_2"
    ∧ (captureLeadMongo []
        { name := "Alice", email := "alice@example.com" } "lead_1").1
      = .ok "lead_1"
    ∧ (captureLeadMongo
        (captureLeadMongo []
          { name := "Alice", email := "alice@example.com" } "lead_1").2
        { name := "Alicia", email := "Alice@Example.com" } "lead_2").1
      = .ok "lead_2" := by
  decide

/-- C2 (amended): neither backend enforces email uniqueness — both
captures of a duplicate email succeed (for MongoDB, whenever the
generated lead ids differ, which is the only unique field); the endpoint
would map a thrown error with Mongo code 11000 to a 400 "Email already
exists" response, distinguishable from the generic 500, but no email
collision produces that code. -/
theorem duplicate_email_behaviour (b1 b2 : LeadBody) (id1 id2 : String)
    (hn1 : b1.name ≠ "") (he1 : b1.email ≠ "")
    (hn2 : b2.name ≠ "") (he2 : b2.email ≠ "")
    (hemail : b2.email = b1.email) (hid : id1 ≠ id2) :
    ((captureLeadFallback [] b1 id1).1 = .ok id1
     ∧ (captureLeadFallback (captureLeadFallback [] b1 id1).2 b2 id2).1
        = .ok id2)
    ∧ ((captureLeadMongo [] b1 id1).1 = .ok id1
     ∧ (captureLeadMongo (captureLeadMongo [] b1 id1).2 b2 id2).1
        = .ok id2)
    ∧ handleLeadError (some 11000) = .badRequest "Email already exists"
    ∧ handleLeadError none = .serverError "Failed to process lead" := by
  simp [captureLeadFallback, captureLeadMongo, handleLeadError,
    hn1, he1, hn2, he2, hid]

/-- C2 witness: the amended theorem applied to two concrete requests
sharing the email `alice@example.com`. -/
theorem duplicate_email_behaviour_witness :
    ((captureLeadFallback []
        { name := "Alice", email := "alice@example.com" } "lead_1").1
      = .ok "lead_1"
     ∧ (captureLeadFallback
        (captureLeadFallback []
          { name := "Alice", email := "alice@example.com" } "lead_1").2
        { name := "Alicia", email := "alice@example.com" } "lead_2").1
      = .ok "lead_2")
    ∧ ((captureLeadMongo []
        { name := "Alice", email := "alice@example.com" } "lead_1").1
      = .ok "lead_1"
     ∧ (captureLeadMongo
        (captureLeadMongo []
          { name := "Alice", email := "alice@example.com" } "lead_1").2
        { name := "Alicia", email := "alice@example.com" } "lead_2").1
      = .ok "lead_2")
    ∧ handleLeadError (some 11000) = .badRequest "Email already exists"
    ∧ handleLeadError none = .serverError "Failed to process lead" :=
  duplicate_email_behaviour
    { name := "Alice", email := "alice@example.com" }
    { name := "Alicia", email := "alice@example.com" } "lead_1" "lead_2"
    (by decide) (by decide) (by decide) (by decide) rfl (by decide)

/-- C3: the email content renderer is total — for every sequence-stage
key and every assessment-answers value (including absent), with the
OpenAI path unavailable or failed, it returns a result with a non-empty
subject and non-empty content, whether the template store loaded
(`loadOk = true`, the store modelled from the spec) or the load failed
(`loadOk = false`, the store is empty and the hardcoded ultimate
fallback is used).  Totality as absence of exceptions is captured by the
embedding: `generatePersonalizedEmail` is a total function covering the
source's catch-all fallbacks. -/
theorem renderer_total_nonempty (loadOk : Bool)
    (ad : Option AssessmentData) (st : String) :
    (generatePersonalizedEmail none (if loadOk then emailTemplates else [])
        ad st).subject ≠ ""
    ∧ (generatePersonalizedEmail none (if loadOk then emailTemplates else [])
        ad st).content ≠ "" := by
  cases loadOk with
  | false =>
      refine ⟨?_, generateFallbackEmail_content_ne_empty_nil ad st⟩
      exact (by decide : ¬ ("Your Personalized AI Career Roadmap" = ""))
  | true =>
      refine ⟨?_, generateFallbackEmail_content_ne_empty_store ad st⟩
      show (generateFallbackEmail emailTemplates ad st).subject ≠ ""
      rw [generateFallbackEmail_store_eq]
      dsimp only
      by_cases hst : st = "welcome"
      · rw [if_pos hst]
        decide
      · rw [if_neg hst]
        decide

/-- C3 witness: the renderer at a loaded store, an absent answer map and
a stage key whose template is never resolved. -/
theorem renderer_total_nonempty_witness :
    (generatePersonalizedEmail none emailTemplates none "final_cta").subject
      ≠ ""
    ∧ (generatePersonalizedEmail none emailTemplates none
        "final_cta").content ≠ "" := by
  simpa using renderer_total_nonempty true none "final_cta"

/-- C4 (counterexample): the store holds its own template for
`success_stories`, yet rendering that stage key returns the
`assessment_results` subject instead of the store's own subject for the
key — distinct non-welcome stage keys do not get their own templates. -/
theorem stage_key_counterexample :
    (lookupTemplate "success_stories" emailTemplates).map
        EmailTemplate.subject
      = some "How Engineers Like You Broke Into AI"
    ∧ (generateFallbackEmail emailTemplates none "success_stories").subject
      = "Your Personalized Assessment Results"
    ∧ ¬ ("Your Personalized Assessment Results"
          = "How Engineers Like You Broke Into AI") :=
  ⟨rfl, rfl, by decide⟩

/-- C4 (amended): the renderer resolves the `welcome` template for the
`welcome` stage key and the `assessment_results` template for every
other stage key — all five non-welcome stages collapse onto the same
template, so only two of the six stored templates are ever used. -/
theorem template_resolution_collapse (ad : Option AssessmentData)
    (st : String) :
    generateFallbackEmail emailTemplates ad st
      = { subject := (if st = "welcome" then welcomeTemplate
                      else assessmentResultsTemplate).subject
          content := renderTemplate
            (if st = "welcome" then welcomeTemplate
             else assessmentResultsTemplate).template ad
            (generateCourseRecommendation ad)
            (generateDetailedRoadmap ad (generateCourseRecommendation ad))
          cta := "Book Your Free Consultation" } :=
  generateFallbackEmail_store_eq ad st

/-- C4 witness: resolution applied to the `success_stories` stage key,
landing on the `assessment_results` template. -/
theorem template_resolution_collapse_witness :
    generateFallbackEmail emailTemplates none "success_stories"
      = { subject := assessmentResultsTemplate.subject
          content := renderTemplate assessmentResultsTemplate.template none
            (generateCourseRecommendation none)
            (generateDetailedRoadmap none (generateCourseRecommendation none))
          cta := "Book Your Free Consultation" } := by
  simpa using template_resolution_collapse none "success_stories"

/-- C5 (counterexample): the welcome email rendered for a lead named
"Alice" (captured without assessment answers) is character-identical to
the one rendered for a lead named "Bob", contains the literal fallback
word "there" where the name placeholder stood, and does not contain
"Alice" — the renderer never receives the lead-identity name. -/
theorem welcome_email_name_counterexample :
    (triggerWelcomeEmail none emailTemplates
        { leadId := "lead_1", name := "Alice",
          email := "alice@example.com" }).content
      = (triggerWelcomeEmail none emailTemplates
          { leadId := "lead_2", name := "Bob",
            email := "alice@example.com" }).content
    ∧ "there".data <:+: (triggerWelcomeEmail none emailTemplates
        { leadId := "lead_1", name := "Alice",
          email := "alice@example.com" }).content.data
    ∧ ¬ ("Alice".data <:+: (triggerWelcomeEmail none emailTemplates
        { leadId := "lead_1", name := "Alice",
          email := "alice@example.com" }).content.data) :=
  ⟨rfl, by decide, by decide⟩

/-- C5 (amended): the welcome-email renderer receives only the lead's
assessment answers — its output is independent of the lead-identity
`name` field — and the name placeholder is substituted with the
assessment-answers `name` entry when present and non-empty, falling back
to the literal "there" otherwise; the lead's own name reaches only the
dispatcher payload's `name` field. -/
theorem welcome_email_name_amended :
    (∀ l1 l2 : StoredLead, l1.assessmentAnswers = l2.assessmentAnswers →
      (triggerWelcomeEmail none emailTemplates l1).content
        = (triggerWelcomeEmail none emailTemplates l2).content)
    ∧ (∀ ad : AssessmentData, ∀ n : String, ad.name = some n → n ≠ "" →
        nameValue (some ad) = n)
    ∧ (∀ l : StoredLead,
        (triggerWelcomeEmail none emailTemplates l).name = l.name) := by
  refine ⟨fun l1 l2 h => ?_, fun ad n hn hne => ?_, fun l => rfl⟩
  · simp only [triggerWelcomeEmail, h]
  · simp [nameValue, jsOr, hn, hne]

/-- C5 witness: the amended theorem applied to a concrete
assessment-answers name and two concrete leads sharing answers. -/
theorem welcome_email_name_amended_witness :
    (triggerWelcomeEmail none emailTemplates
        { leadId := "l1", name := "Alice", email := "a@x.com" }).content
      = (triggerWelcomeEmail none emailTemplates
          { leadId := "l2", name := "Bob", email := "b@x.com" }).content
    ∧ nameValue (some { name := some "Priya" }) = "Priya" :=
  ⟨welcome_email_name_amended.1
      { leadId := "l1", name := "Alice", email := "a@x.com" }
      { leadId := "l2", name := "Bob", email := "b@x.com" } rfl,
   welcome_email_name_amended.2.1 { name := some "Priya" } "Priya" rfl
      (by decide)⟩

/-- C6: the course recommendation is the Data Science & Analytics
Program whenever `interest = "data_science"`, regardless of every other
field, and the default AI & Machine Learning Program whenever `interest`
is absent or not one of `data_science`, `mlops`, `ai_research`. -/
theorem interest_course_mapping (ad : Option AssessmentData) :
    (ad.bind AssessmentData.interest = some "data_science" →
      (generateCourseRecommendation ad).recommendedCourse
        = "Data Science & Analytics Program")
    ∧ (ad.bind AssessmentData.interest ≠ some "data_science" →
       ad.bind AssessmentData.interest ≠ some "mlops" →
       ad.bind AssessmentData.interest ≠ some "ai_research" →
      (generateCourseRecommendation ad).recommendedCourse
        = "AI & Machine Learning Program") := by
  cases ad with
  | none => exact ⟨by simp, fun _ _ _ => rfl⟩
  | some a =>
      constructor
      · intro h
        simp only [Option.some_bind] at h
        simp [generateCourseRecommendation, h]
      · intro h1 h2 h3
        simp only [Option.some_bind] at h1 h2 h3
        simp [generateCourseRecommendation, h1, h2, h3]

/-- C6 witness: the mapping applied to a data-science answer map with
other fields populated, and to an absent answer map. -/
theorem interest_course_mapping_witness :
    (generateCourseRecommendation
        (some { interest := some "data_science",
                experience := some "expert",
                career_goal := some "switch" })).recommendedCourse
      = "Data Science & Analytics Program"
    ∧ (generateCourseRecommendation none).recommendedCourse
      = "AI & Machine Learning Program" :=
  ⟨(interest_course_mapping
      (some { interest := some "data_science",
              experience := some "expert",
              career_goal := some "switch" })).1 rfl,
   (interest_course_mapping none).2 (by decide) (by decide) (by decide)⟩

/-- C7: the timeline embedded in the generated roadmap string is
determined solely by the `experience` field — `beginner` yields the
15-month timeline, `expert` the 9-month timeline, and anything else
(including absent) the 12-month timeline — for every assessment-answers
value and recommendation. -/
theorem roadmap_timeline_by_experience (ad : Option AssessmentData)
    (rec : Recommendation) :
    extractTimeline (generateDetailedRoadmap ad rec)
      = (if ad.bind AssessmentData.experience = some "beginner" then
          "15 months (includes extended foundation period)"
        else if ad.bind AssessmentData.experience = some "expert" then
          "9 months (accelerated track available)"
        else "12 months") := by
  simp only [generateDetailedRoadmap, roadmapTimeline, roadmapForInterest,
    bulletList]
  split_ifs <;> rfl

/-- C7 witness: the roadmap rendered for a beginner shows the 15-month
timeline. -/
theorem roadmap_timeline_witness :
    extractTimeline (generateDetailedRoadmap
        (some { experience := some "beginner" })
        (generateCourseRecommendation none))
      = "15 months (includes extended foundation period)" := by
  simpa using roadmap_timeline_by_experience
    (some { experience := some "beginner" })
    (generateCourseRecommendation none)

/-- C8: an increment that takes `leadCaptures` from 1 to 2 while
`assessmentStarts` is 10 recomputes `conversionRate` to exactly 20, in
both the MongoDB-backed and the in-memory branch of `updateAnalytics`. -/
theorem conversion_rate_recompute (a : Analytics)
    (hstarts : a.assessmentStarts = 10) (hlc : a.leadCaptures = 1) :
    (updateAnalyticsMongo .leadCaptures a).leadCaptures = 2
    ∧ (updateAnalyticsMongo .leadCaptures a).conversionRate = 20
    ∧ (updateAnalyticsFallback .leadCaptures a).leadCaptures = 2
    ∧ (updateAnalyticsFallback .leadCaptures a).conversionRate = 20 := by
  simp [updateAnalyticsMongo, updateAnalyticsFallback, updateConversionRate,
    incrementField, hstarts, hlc]
  norm_num

/-- C8 witness: the recomputation applied to the concrete analytics
state with ten assessment starts and one prior lead capture. -/
theorem conversion_rate_recompute_witness :
    (updateAnalyticsMongo .leadCaptures
        { assessmentStarts := 10, leadCaptures := 1 }).conversionRate = 20
    ∧ (updateAnalyticsFallback .leadCaptures
        { assessmentStarts := 10, leadCaptures := 1 }).conversionRate
      = 20 :=
  ⟨(conversion_rate_recompute
      { assessmentStarts := 10, leadCaptures := 1 } rfl rfl).2.1,
   (conversion_rate_recompute
      { assessmentStarts := 10, leadCaptures := 1 } rfl rfl).2.2.2⟩

/-- C9: every dispatch returns a result with `success = true` carrying
the payload's recipient and subject; when the transport is unconfigured
or the transport send fails, the result is the mock one with
`provider = "mock"` and a generated message id; when a configured
transport send succeeds the same result shape carries
`provider = "gmail"` and the transport's id — so the caller never sees a
thrown error. -/
theorem dispatcher_uniform (isConfigured : Bool)
    (transport : TransportOutcome) (now : Nat) (rand : String)
    (payload : EmailPayload) :
    ((gmailSendEmail isConfigured transport now rand payload).success = true
     ∧ (gmailSendEmail isConfigured transport now rand payload).«to»
        = payload.«to»
     ∧ (gmailSendEmail isConfigured transport now rand payload).subject
        = payload.subject)
    ∧ (isConfigured = false ∨ transport = .err →
        (gmailSendEmail isConfigured transport now rand payload).provider
          = "mock"
        ∧ (gmailSendEmail isConfigured transport now rand payload).messageId
          = "mock_" ++ toString now ++ "_" ++ rand)
    ∧ (∀ mid, isConfigured = true → transport = .ok mid →
        (gmailSendEmail isConfigured transport now rand payload).provider
          = "gmail"
        ∧ (gmailSendEmail isConfigured transport now rand payload).messageId
          = mid) := by
  cases isConfigured <;> cases transport <;>
    simp [gmailSendEmail, mockEmailResponse]

/-- C9 witness: the dispatcher applied to an unconfigured transport with
a concrete payload. -/
theorem dispatcher_uniform_witness :
    (gmailSendEmail false .err 5 "r1"
        { «to» := "a@x.com", name := "A", subject := "S", content := "C",
          type := "welcome" }).provider = "mock"
    ∧ (gmailSendEmail false .err 5 "r1"
        { «to» := "a@x.com", name := "A", subject := "S", content := "C",
          type := "welcome" }).messageId
      = "mock_" ++ toString 5 ++ "_" ++ "r1" :=
  (dispatcher_uniform false .err 5 "r1"
      { «to» := "a@x.com", name := "A", subject := "S", content := "C",
        type := "welcome" }).2.1 (Or.inl rfl)

/-- C10: starting from the zeroed in-memory mirror, after any sequence
of analytics operations (normal increments or error-path increments) the
conversion rate is a non-negative rational — the recomputation only
happens under the `assessmentStarts > 0` guard, so no division by zero
ever occurs — and the rate remains 0 as long as `assessmentStarts` is
still 0. -/
theorem fallback_conversion_rate_safe (ops : List AnalyticsOp) :
    0 ≤ (runAnalytics ops).conversionRate
    ∧ ((runAnalytics ops).assessmentStarts = 0 →
        (runAnalytics ops).conversionRate = 0) := by
  suffices h : ∀ a : Analytics, 0 ≤ a.conversionRate →
      (a.assessmentStarts = 0 → a.conversionRate = 0) →
      0 ≤ (ops.foldl stepAnalytics a).conversionRate
      ∧ ((ops.foldl stepAnalytics a).assessmentStarts = 0 →
          (ops.foldl stepAnalytics a).conversionRate = 0) by
    exact h initialAnalytics le_rfl (fun _ => rfl)
  induction ops with
  | nil => exact fun a h1 h2 => ⟨h1, h2⟩
  | cons op rest ih =>
      intro a h1 h2
      simp only [List.foldl_cons]
      obtain ⟨g1, g2⟩ := stepAnalytics_invariant a op h1 h2
      exact ih _ g1 g2

/-- C10 witness: after a lead capture and an error-path page view with
no assessment start, the rate is still exactly 0. -/
theorem fallback_conversion_rate_safe_witness :
    0 ≤ (runAnalytics
        [.track .leadCaptures, .trackOnError .pageViews]).conversionRate
    ∧ (runAnalytics
        [.track .leadCaptures, .trackOnError .pageViews]).conversionRate
      = 0 :=
  ⟨(fallback_conversion_rate_safe
      [.track .leadCaptures, .trackOnError .pageViews]).1,
   (fallback_conversion_rate_safe
      [.track .leadCaptures, .trackOnError .pageViews]).2 (by decide)⟩

end FunnelMind
